import Mathlib

/-!
Verification of the in-memory Reddit-clone engine
(`internal/engine/engine.go` together with `internal/models/models.go`).

Each `sync.Map` store of the Go `RedditEngine` is embedded as an
association list keyed by id; `Load`, `Store` and `Delete` are the
corresponding association-list operations.  The random 128-bit ids of
`generateID` are embedded as a fresh-id counter carried in the state
(the ids are opaque; only their freshness matters).  `time.Time` fields
are omitted.  Go's `int`/`int64` counters are embedded as `Int` (the
properties below never approach the 64-bit bounds).  Fallible Go
methods returning `(T, error)` become `Except String T`; methods
returning only `error` become `Option String` (`none` = success).
-/

namespace models

/-- `models.User` (time field omitted). -/
structure User where
  id : String
  username : String
  password : String
  karma : Int
  isOnline : Bool
  deriving Repr, DecidableEq

/-- `models.SubReddit`; `Members` is the key set of the `sync.Map`
(every stored value is `true`, so only the key set matters). -/
structure SubReddit where
  id : String
  name : String
  description : String
  creatorID : String
  memberCount : Int
  postCount : Int
  members : List String
  deriving Repr, DecidableEq

/-- `models.Post` (time field omitted). -/
structure Post where
  id : String
  title : String
  content : String
  authorID : String
  subRedditID : String
  isRepost : Bool
  originalID : String
  upvotes : Int
  downvotes : Int
  commentCount : Int
  deriving Repr, DecidableEq

/-- `models.Comment` (time field omitted). -/
structure Comment where
  id : String
  content : String
  authorID : String
  postID : String
  parentID : Option String
  depth : Int
  upvotes : Int
  downvotes : Int
  deriving Repr, DecidableEq

/-- `models.DirectMessage` (time field omitted). -/
structure DirectMessage where
  id : String
  fromID : String
  toID : String
  content : String
  isRead : Bool
  deriving Repr, DecidableEq

/-- `models.Vote` (time field omitted; the `ID` field is never set by
the engine and stays at its zero value, so it is omitted). -/
structure Vote where
  userID : String
  targetID : String
  isUpvote : Bool
  deriving Repr, DecidableEq

end models

/-- `sync.Map.Load`: first binding of the key, if any. -/
def mapLoad {α : Type} (m : List (String × α)) (k : String) : Option α :=
  (m.find? (fun p => p.1 == k)).map Prod.snd

/-- `sync.Map.Store`: replace the binding if the key is present,
otherwise append a new binding. -/
def mapStore {α : Type} (m : List (String × α)) (k : String) (v : α) :
    List (String × α) :=
  if (m.find? (fun p => p.1 == k)).isSome then
    m.map (fun p => if p.1 == k then (k, v) else p)
  else
    m ++ [(k, v)]

/-- `sync.Map.Delete`: drop every binding of the key. -/
def mapDelete {α : Type} (m : List (String × α)) (k : String) :
    List (String × α) :=
  m.filter (fun p => p.1 != k)

/-- Adding a user id to a `Members` map (`Members.Store(userID, true)`):
the key set gains the id if absent. -/
def membersStore (ms : List String) (u : String) : List String :=
  if ms.contains u then ms else ms ++ [u]

/-- Removing a user id from a `Members` map (`Members.Delete(userID)`). -/
def membersDelete (ms : List String) (u : String) : List String :=
  ms.filter (fun x => x != u)

/-- The whole mutable state of `RedditEngine`: one association list per
`sync.Map` field, plus the fresh-id counter modelling `generateID`. -/
structure EngineState where
  users : List (String × models.User)
  subreddits : List (String × models.SubReddit)
  posts : List (String × models.Post)
  comments : List (String × models.Comment)
  messages : List (String × models.DirectMessage)
  votes : List (String × models.Vote)
  nextID : Nat
  deriving Repr, DecidableEq

/-- `NewRedditEngine()`: all stores empty. -/
def initState : EngineState :=
  { users := [], subreddits := [], posts := [], comments := [],
    messages := [], votes := [], nextID := 0 }

/-- The id produced for the `n`-th call of `generateID`.  The Go ids
are opaque random hex strings; the embedding only needs them pairwise
distinct, so the `n`-th id is the string of `n` copies of `a`. -/
def idString (n : Nat) : String :=
  ⟨List.replicate n 'a'⟩

/-- `generateID()`: a fresh id, advancing the counter. -/
def generateID (s : EngineState) : String × EngineState :=
  (idString s.nextID, { s with nextID := s.nextID + 1 })

/-- `bcrypt.GenerateFromPassword`, embedded as an opaque-but-pure
injective tagging of the password (its cryptographic content is
irrelevant to every property below; it never fails in the embedding). -/
def bcryptHash (password : String) : String :=
  "bcrypt:" ++ password

/-- `RedditEngine.RegisterAccount` (engine.go:40-72): scan for a user
with the same username; on a hit return the conflict error, otherwise
hash the password and store a new user with karma 0. -/
def RegisterAccount (s : EngineState) (username password : String) :
    Except String models.User × EngineState :=
  if s.users.any (fun p => p.2.username == username) then
    (Except.error "username already exists", s)
  else
    let (id, s1) := generateID s
    let user : models.User :=
      { id := id, username := username, password := bcryptHash password,
        karma := 0, isOnline := false }
    (Except.ok user, { s1 with users := mapStore s1.users id user })

/-- `RedditEngine.CreateSubReddit` (engine.go:98-118): the creator must
exist; the creator is stored as the first member. -/
def CreateSubReddit (s : EngineState) (name description creatorID : String) :
    Except String models.SubReddit × EngineState :=
  if (mapLoad s.users creatorID).isNone then
    (Except.error "creator not found", s)
  else
    let (id, s1) := generateID s
    let subreddit : models.SubReddit :=
      { id := id, name := name, description := description,
        creatorID := creatorID, memberCount := 0, postCount := 0,
        members := membersStore [] creatorID }
    (Except.ok subreddit,
      { s1 with subreddits := mapStore s1.subreddits id subreddit })

/-- `RedditEngine.JoinSubReddit` (engine.go:140-154): the subreddit and
the user must both exist; then the user id is stored into the member
set. -/
def JoinSubReddit (s : EngineState) (userID subredditID : String) :
    Option String × EngineState :=
  match mapLoad s.subreddits subredditID with
  | none => (some "subreddit not found", s)
  | some subreddit =>
    if (mapLoad s.users userID).isNone then
      (some "user not found", s)
    else
      let subreddit' :=
        { subreddit with members := membersStore subreddit.members userID }
      (none,
        { s with subreddits := mapStore s.subreddits subredditID subreddit' })

/-- `RedditEngine.LeaveSubReddit` (engine.go:157-166): only the
subreddit is looked up; the user id is deleted from the member set
whether or not such a user exists. -/
def LeaveSubReddit (s : EngineState) (userID subredditID : String) :
    Option String × EngineState :=
  match mapLoad s.subreddits subredditID with
  | none => (some "subreddit not found", s)
  | some subreddit =>
    let subreddit' :=
      { subreddit with members := membersDelete subreddit.members userID }
    (none,
      { s with subreddits := mapStore s.subreddits subredditID subreddit' })

/-- `RedditEngine.CreatePost` (engine.go:169-199): author existence,
subreddit existence, then membership, in that order; only then is the
post allocated and stored. -/
def CreatePost (s : EngineState) (title content authorID subredditID : String) :
    Except String models.Post × EngineState :=
  let authorExists := (mapLoad s.users authorID).isSome
  match mapLoad s.subreddits subredditID with
  | none =>
    if !authorExists then (Except.error "author not found", s)
    else (Except.error "subreddit not found", s)
  | some subreddit =>
    if !authorExists then (Except.error "author not found", s)
    else if !(subreddit.members.contains authorID) then
      (Except.error "user is not a member of this subreddit", s)
    else
      let (id, s1) := generateID s
      let post : models.Post :=
        { id := id, title := title, content := content,
          authorID := authorID, subRedditID := subredditID,
          isRepost := false, originalID := "", upvotes := 0,
          downvotes := 0, commentCount := 0 }
      (Except.ok post, { s1 with posts := mapStore s1.posts id post })

/-- `RedditEngine.CreateComment` (engine.go:224-255): author, post and
(when given) parent comment must exist.  The Go code never assigns the
`Depth` field, so every stored comment carries the zero value 0. -/
def CreateComment (s : EngineState)
    (content authorID postID : String) (parentCommentID : Option String) :
    Except String models.Comment × EngineState :=
  let authorExists := (mapLoad s.users authorID).isSome
  let postExists := (mapLoad s.posts postID).isSome
  if !authorExists then (Except.error "author not found", s)
  else if !postExists then (Except.error "post not found", s)
  else
    match parentCommentID with
    | some pid =>
      if (mapLoad s.comments pid).isNone then
        (Except.error "parent comment not found", s)
      else
        let (id, s1) := generateID s
        let comment : models.Comment :=
          { id := id, content := content, authorID := authorID,
            postID := postID, parentID := some pid, depth := 0,
            upvotes := 0, downvotes := 0 }
        (Except.ok comment,
          { s1 with comments := mapStore s1.comments id comment })
    | none =>
      let (id, s1) := generateID s
      let comment : models.Comment :=
        { id := id, content := content, authorID := authorID,
          postID := postID, parentID := none, depth := 0,
          upvotes := 0, downvotes := 0 }
      (Except.ok comment,
        { s1 with comments := mapStore s1.comments id comment })

/-- The per-(user, target) vote key `userID + ":" + targetID`. -/
def voteID (userID targetID : String) : String :=
  userID ++ ":" ++ targetID

/-- `RedditEngine.Vote` (engine.go:271-337): resolve the target against
posts first, then comments; on a repeat vote of the same polarity do
nothing, on a flip move one count from the old bucket to the new one
and update the recorded vote, on a first vote bump the chosen bucket
and record the vote. -/
def Vote (s : EngineState) (userID targetID : String) (isUpvote : Bool) :
    Option String × EngineState :=
  let postOpt := mapLoad s.posts targetID
  let commentOpt := mapLoad s.comments targetID
  if postOpt.isNone && commentOpt.isNone then
    (some "target not found", s)
  else
    let vid := voteID userID targetID
    match mapLoad s.votes vid with
    | some existingVote =>
      if existingVote.isUpvote != isUpvote then
        let s1 :=
          match postOpt with
          | some post =>
            let post' :=
              if isUpvote then
                { post with upvotes := post.upvotes + 1,
                            downvotes := post.downvotes - 1 }
              else
                { post with downvotes := post.downvotes + 1,
                            upvotes := post.upvotes - 1 }
            { s with posts := mapStore s.posts targetID post' }
          | none =>
            match commentOpt with
            | some comment =>
              let comment' :=
                if isUpvote then
                  { comment with upvotes := comment.upvotes + 1,
                                 downvotes := comment.downvotes - 1 }
                else
                  { comment with downvotes := comment.downvotes + 1,
                                 upvotes := comment.upvotes - 1 }
              { s with comments := mapStore s.comments targetID comment' }
            | none => s
        (none,
          { s1 with votes :=
              mapStore s1.votes vid ({ existingVote with isUpvote := isUpvote }) })
      else
        (none, s)
    | none =>
      let vote : models.Vote :=
        { userID := userID, targetID := targetID, isUpvote := isUpvote }
      let s1 :=
        match postOpt with
        | some post =>
          let post' :=
            if isUpvote then { post with upvotes := post.upvotes + 1 }
            else { post with downvotes := post.downvotes + 1 }
          { s with posts := mapStore s.posts targetID post' }
        | none =>
          match commentOpt with
          | some comment =>
            let comment' :=
              if isUpvote then { comment with upvotes := comment.upvotes + 1 }
              else { comment with downvotes := comment.downvotes + 1 }
            { s with comments := mapStore s.comments targetID comment' }
          | none => s
      (none, { s1 with votes := mapStore s1.votes vid vote })

/-- `RedditEngine.GetFeed` (engine.go:340-363): collect the ids of the
subreddits whose member set contains the user, then keep exactly the
posts whose subreddit id is in that set. -/
def GetFeed (s : EngineState) (userID : String) : List models.Post :=
  let userSubscriptions :=
    (s.subreddits.filter (fun p => p.2.members.contains userID)).map
      (fun p => p.2.id)
  (s.posts.map Prod.snd).filter
    (fun post => userSubscriptions.contains post.subRedditID)

/-- `RedditEngine.SendDirectMessage` (engine.go:366-388): sender and
recipient must both exist. -/
def SendDirectMessage (s : EngineState) (fromID toID content : String) :
    Except String models.DirectMessage × EngineState :=
  let fromExists := (mapLoad s.users fromID).isSome
  let toExists := (mapLoad s.users toID).isSome
  if !fromExists then (Except.error "sender not found", s)
  else if !toExists then (Except.error "recipient not found", s)
  else
    let (id, s1) := generateID s
    let message : models.DirectMessage :=
      { id := id, fromID := fromID, toID := toID, content := content,
        isRead := false }
    (Except.ok message,
      { s1 with messages := mapStore s1.messages id message })

/-- `RedditEngine.GetMessage` (engine.go:391-402): not-found when the
id is unknown; unauthorized when the caller is neither sender nor
recipient.  Read-only: the state passes through unchanged. -/
def GetMessage (s : EngineState) (userID messageID : String) :
    Except String models.DirectMessage × EngineState :=
  match mapLoad s.messages messageID with
  | none => (Except.error "message not found", s)
  | some msg =>
    if msg.fromID != userID && msg.toID != userID then
      (Except.error "unauthorized access to message", s)
    else
      (Except.ok msg, s)

/-- The counter pair of a votable target, resolved exactly as `Vote`
resolves it: posts first, then comments. -/
def targetCounters (s : EngineState) (targetID : String) :
    Option (Int × Int) :=
  match mapLoad s.posts targetID with
  | some p => some (p.upvotes, p.downvotes)
  | none =>
    match mapLoad s.comments targetID with
    | some c => some (c.upvotes, c.downvotes)
    | none => none

/-- The polarity currently recorded for a (user, target) pair. -/
def recordedPolarity (s : EngineState) (userID targetID : String) :
    Option Bool :=
  (mapLoad s.votes (voteID userID targetID)).map models.Vote.isUpvote

/-- States reachable from the fresh engine by the engine operations. -/
inductive Reachable : EngineState → Prop where
  | init : Reachable initState
  | register (s : EngineState) (u p : String) :
      Reachable s → Reachable (RegisterAccount s u p).2
  | createSub (s : EngineState) (n d c : String) :
      Reachable s → Reachable (CreateSubReddit s n d c).2
  | join (s : EngineState) (u c : String) :
      Reachable s → Reachable (JoinSubReddit s u c).2
  | leave (s : EngineState) (u c : String) :
      Reachable s → Reachable (LeaveSubReddit s u c).2
  | post (s : EngineState) (t c a sub : String) :
      Reachable s → Reachable (CreatePost s t c a sub).2
  | comment (s : EngineState) (c a p : String) (par : Option String) :
      Reachable s → Reachable (CreateComment s c a p par).2
  | vote (s : EngineState) (u t : String) (b : Bool) :
      Reachable s → Reachable (Vote s u t b).2
  | send (s : EngineState) (f t c : String) :
      Reachable s → Reachable (SendDirectMessage s f t c).2
  | getMsg (s : EngineState) (u m : String) :
      Reachable s → Reachable (GetMessage s u m).2


theorem mapLoad_cons {α : Type} (a : String × α) (t : List (String × α)) (k : String) :
    mapLoad (a :: t) k = if a.1 = k then some a.2 else mapLoad t k := by
  by_cases h : a.1 = k <;> simp [mapLoad, List.find?_cons, h]

theorem mapLoad_eq_none_iff {α : Type} (m : List (String × α)) (k : String) :
    mapLoad m k = none ↔ ∀ p ∈ m, p.1 ≠ k := by
  simp [mapLoad, List.find?_eq_none]

theorem users_CreateSubReddit (s : EngineState) (n d c : String) :
    (CreateSubReddit s n d c).2.users = s.users := by
  simp only [CreateSubReddit, generateID]
  split <;> rfl

theorem state_GetMessage (s : EngineState) (u m : String) :
    (GetMessage s u m).2 = s := by
  simp only [GetMessage]
  split <;> (try split) <;> rfl

theorem users_Vote (s : EngineState) (u t : String) (b : Bool) :
    (Vote s u t b).2.users = s.users := by
  simp only [Vote]
  split
  · rfl
  · split <;> split <;> (try split) <;> (try split) <;> rfl

theorem mapLoad_map_replace {α : Type} (t : List (String × α)) (k k' : String)
    (v : α) (h : k' ≠ k) :
    mapLoad (t.map (fun p => if p.1 == k then (k, v) else p)) k' = mapLoad t k' := by
  induction t with
  | nil => rfl
  | cons a t ih =>
    simp only [List.map_cons]
    by_cases ha : a.1 = k
    · rw [if_pos (by simp [ha]), mapLoad_cons, mapLoad_cons,
        if_neg (show ¬((k, v).1 = k') from Ne.symm h), if_neg (by simp [ha, Ne.symm h])]
      exact ih
    · rw [if_neg (by simp [ha]), mapLoad_cons, mapLoad_cons]
      by_cases hk' : a.1 = k'
      · rw [if_pos hk', if_pos hk']
      · rw [if_neg hk', if_neg hk']
        exact ih

theorem mapStore_cons_ne {α : Type} (a : String × α) (t : List (String × α))
    (k : String) (v : α) (ha : a.1 ≠ k) :
    mapStore (a :: t) k v = a :: mapStore t k v := by
  have hfind : (a :: t).find? (fun p => p.1 == k) = t.find? (fun p => p.1 == k) :=
    List.find?_cons_of_neg _ (by simp [ha])
  by_cases hf : (t.find? (fun p => p.1 == k)).isSome = true
  · simp only [mapStore, hfind, hf, if_true, List.map_cons, if_neg (by simp [ha] :
      ¬((a.1 == k) = true))]
  · simp only [mapStore, hfind, hf, if_false, List.cons_append]
    rfl

theorem mapStore_cons_eq {α : Type} (a : String × α) (t : List (String × α))
    (k : String) (v : α) (ha : a.1 = k) :
    mapStore (a :: t) k v =
      (k, v) :: t.map (fun p => if p.1 == k then (k, v) else p) := by
  have hfind : (a :: t).find? (fun p => p.1 == k) = some a :=
    List.find?_cons_of_pos _ (by simp [ha])
  simp only [mapStore, hfind, Option.isSome_some, if_true, List.map_cons,
    if_pos (by simp [ha] : ((a.1 == k) = true))]

theorem mapLoad_mapStore {α : Type} (m : List (String × α)) (k k' : String) (v : α) :
    mapLoad (mapStore m k v) k' = if k' = k then some v else mapLoad m k' := by
  induction m with
  | nil =>
    show mapLoad [(k, v)] k' = _
    rw [mapLoad_cons]
    by_cases h : k' = k
    · rw [if_pos h.symm, if_pos h]
    · rw [if_neg (Ne.symm h), if_neg h]
  | cons a t ih =>
    by_cases ha : a.1 = k
    · rw [mapStore_cons_eq a t k v ha, mapLoad_cons]
      by_cases h : k' = k
      · rw [if_pos h.symm, if_pos h]
      · rw [if_neg (Ne.symm h), if_neg h, mapLoad_map_replace t k k' v h,
          mapLoad_cons, if_neg (fun hh => h (ha ▸ hh).symm)]
    · rw [mapStore_cons_ne a t k v ha, mapLoad_cons, mapLoad_cons, ih]
      by_cases h : k' = k
      · rw [if_pos h, if_pos h, if_neg (fun hh => ha (hh.trans h))]
      · rw [if_neg h, if_neg h]

theorem mapLoad_eq_some_mem {α : Type} {m : List (String × α)} {k : String} {v : α}
    (h : mapLoad m k = some v) : (k, v) ∈ m := by
  unfold mapLoad at h
  rcases Option.map_eq_some'.1 h with ⟨p, hfind, hsnd⟩
  have hmem := List.mem_of_find?_eq_some hfind
  have hkey : p.1 = k := by
    have := List.find?_some hfind
    simpa using this
  have : p = (k, v) := by
    cases p
    simp_all
  exact this ▸ hmem

theorem mapStore_of_none {α : Type} {m : List (String × α)} {k : String} (v : α)
    (h : mapLoad m k = none) : mapStore m k v = m ++ [(k, v)] := by
  have hfind : m.find? (fun p => p.1 == k) = none := by
    unfold mapLoad at h
    exact Option.map_eq_none'.1 h
  simp [mapStore, hfind]

theorem mapStore_self {α : Type} {m : List (String × α)} {k : String} {v : α}
    (hnd : (m.map Prod.fst).Nodup) (h : mapLoad m k = some v) :
    mapStore m k v = m := by
  induction m with
  | nil => simp [mapLoad] at h
  | cons a t ih =>
    rw [mapLoad_cons] at h
    rw [List.map_cons, List.nodup_cons] at hnd
    by_cases ha : a.1 = k
    · rw [if_pos ha] at h
      rw [mapStore_cons_eq a t k v ha]
      have hav : a = (k, v) := by
        cases a
        simp_all
      have : t.map (fun p => if p.1 == k then (k, v) else p) = t := by
        conv_rhs => rw [← List.map_id t]
        apply List.map_congr_left
        intro p hp
        have : p.1 ≠ k := fun hpk => hnd.1 (ha ▸ hpk ▸ (List.mem_map_of_mem Prod.fst hp))
        simp [this, id]
      rw [this, ← hav]
    · rw [if_neg ha] at h
      rw [mapStore_cons_ne a t k v ha, ih hnd.2 h]

theorem keysNodup_mapStore {α : Type} (m : List (String × α)) (k : String) (v : α)
    (hnd : (m.map Prod.fst).Nodup) :
    ((mapStore m k v).map Prod.fst).Nodup := by
  by_cases h : (m.find? (fun p => p.1 == k)).isSome = true
  · have : (mapStore m k v).map Prod.fst = m.map Prod.fst := by
      simp only [mapStore, h, if_true, List.map_map]
      apply List.map_congr_left
      intro p _
      by_cases hp : p.1 = k <;> simp [hp]
    rw [this]
    exact hnd
  · have hload : mapLoad m k = none := by
      unfold mapLoad
      rw [Option.not_isSome_iff_eq_none.1 (fun hh => h hh)]
      rfl
    rw [mapStore_of_none v hload, List.map_append]
    simp only [List.map_cons, List.map_nil]
    rw [List.nodup_append]
    refine ⟨hnd, List.nodup_singleton k, ?_⟩
    intro x hx hk
    have : x = k := by simpa using hk
    rcases List.mem_map.1 hx with ⟨p, hp, hpx⟩
    have : p.1 = k := hpx.symm ▸ this ▸ rfl
    have := (mapLoad_eq_none_iff m k).1 hload p hp
    simp_all

theorem mem_mapStore {α : Type} {m : List (String × α)} {k : String} {v : α}
    {p : String × α} (h : p ∈ mapStore m k v) : p ∈ m ∨ p = (k, v) := by
  by_cases hf : (m.find? (fun q => q.1 == k)).isSome = true
  · simp only [mapStore, hf, if_true] at h
    rcases List.mem_map.1 h with ⟨q, hq, hqe⟩
    by_cases hqk : q.1 = k
    · right
      rw [← hqe]
      simp [hqk]
    · left
      rw [← hqe]
      simpa [hqk] using hq
  · simp only [mapStore, hf, if_false] at h
    rcases List.mem_append.1 h with hm | hm
    · exact Or.inl hm
    · exact Or.inr (by simpa using hm)

theorem mem_membersStore_self (ms : List String) (u : String) :
    u ∈ membersStore ms u := by
  unfold membersStore
  by_cases hm : u ∈ ms
  · simp [hm]
  · simp [hm]

theorem membersStore_of_mem {ms : List String} {u : String} (h : u ∈ ms) :
    membersStore ms u = ms := by
  simp [membersStore, h]

theorem mem_membersStore {ms : List String} {u x : String} :
    x ∈ membersStore ms u ↔ x ∈ ms ∨ x = u := by
  unfold membersStore
  by_cases hm : u ∈ ms
  · have : membersStore ms u = ms := by simp [membersStore, hm]
    rw [membersStore] at this
    rw [this]
    constructor
    · exact Or.inl
    · rintro (hx | rfl)
      · exact hx
      · exact hm
  · simp [hm]

theorem idString_injective : Function.Injective idString := by
  intro a b h
  have hdata : List.replicate a 'a' = List.replicate b 'a' :=
    congrArg String.data h
  have := congrArg List.length hdata
  simpa using this

theorem users_JoinSubReddit (s : EngineState) (u c : String) :
    (JoinSubReddit s u c).2.users = s.users := by
  simp only [JoinSubReddit]
  split
  · rfl
  · split <;> rfl

theorem users_LeaveSubReddit (s : EngineState) (u c : String) :
    (LeaveSubReddit s u c).2.users = s.users := by
  simp only [LeaveSubReddit]
  split <;> rfl

theorem users_CreatePost (s : EngineState) (t c a sub : String) :
    (CreatePost s t c a sub).2.users = s.users := by
  simp only [CreatePost, generateID]
  split
  · split <;> rfl
  · split
    · rfl
    · split <;> rfl

theorem users_CreateComment (s : EngineState) (c a p : String) (par : Option String) :
    (CreateComment s c a p par).2.users = s.users := by
  simp only [CreateComment, generateID]
  split
  · rfl
  · split
    · rfl
    · split
      · split <;> rfl
      · rfl

theorem users_SendDirectMessage (s : EngineState) (f t c : String) :
    (SendDirectMessage s f t c).2.users = s.users := by
  simp only [SendDirectMessage, generateID]
  split
  · rfl
  · split <;> rfl

theorem RegisterAccount_conflict (s : EngineState) (u p : String)
    (h : s.users.any (fun q => q.2.username == u) = true) :
    RegisterAccount s u p = (Except.error "username already exists", s) := by
  simp [RegisterAccount, h]

theorem RegisterAccount_success (s : EngineState) (u p : String)
    (h : ¬ s.users.any (fun q => q.2.username == u) = true) :
    RegisterAccount s u p =
      (Except.ok ({ id := idString s.nextID, username := u,
                    password := bcryptHash p, karma := 0, isOnline := false }),
       { s with users := mapStore s.users (idString s.nextID)
                  ({ id := idString s.nextID, username := u,
                     password := bcryptHash p, karma := 0, isOnline := false }),
                nextID := s.nextID + 1 }) := by
  simp [RegisterAccount, generateID, h]

theorem subreddits_RegisterAccount (s : EngineState) (u p : String) :
    (RegisterAccount s u p).2.subreddits = s.subreddits := by
  simp only [RegisterAccount, generateID]
  split <;> rfl

theorem subreddits_CreatePost (s : EngineState) (t c a sub : String) :
    (CreatePost s t c a sub).2.subreddits = s.subreddits := by
  simp only [CreatePost, generateID]
  split
  · split <;> rfl
  · split
    · rfl
    · split <;> rfl

theorem subreddits_CreateComment (s : EngineState) (c a p : String)
    (par : Option String) :
    (CreateComment s c a p par).2.subreddits = s.subreddits := by
  simp only [CreateComment, generateID]
  split
  · rfl
  · split
    · rfl
    · split
      · split <;> rfl
      · rfl

theorem subreddits_Vote (s : EngineState) (u t : String) (b : Bool) :
    (Vote s u t b).2.subreddits = s.subreddits := by
  simp only [Vote]
  split
  · rfl
  · split <;> split <;> (try split) <;> (try split) <;> rfl

theorem messages_Vote (s : EngineState) (u t : String) (b : Bool) :
    (Vote s u t b).2.messages = s.messages := by
  simp only [Vote]
  split
  · rfl
  · split <;> split <;> (try split) <;> (try split) <;> rfl

theorem nextID_Vote (s : EngineState) (u t : String) (b : Bool) :
    (Vote s u t b).2.nextID = s.nextID := by
  simp only [Vote]
  split
  · rfl
  · split <;> split <;> (try split) <;> (try split) <;> rfl

theorem subreddits_SendDirectMessage (s : EngineState) (f t c : String) :
    (SendDirectMessage s f t c).2.subreddits = s.subreddits := by
  simp only [SendDirectMessage, generateID]
  split
  · rfl
  · split <;> rfl

theorem subreddits_shape_CreateSubReddit (s : EngineState) (n d c : String) :
    (CreateSubReddit s n d c).2.subreddits = s.subreddits ∨
    ∃ k v, (CreateSubReddit s n d c).2.subreddits = mapStore s.subreddits k v := by
  simp only [CreateSubReddit, generateID]
  split
  · exact Or.inl rfl
  · exact Or.inr ⟨_, _, rfl⟩

theorem subreddits_shape_JoinSubReddit (s : EngineState) (u c : String) :
    (JoinSubReddit s u c).2.subreddits = s.subreddits ∨
    ∃ k v, (JoinSubReddit s u c).2.subreddits = mapStore s.subreddits k v := by
  simp only [JoinSubReddit]
  split
  · exact Or.inl rfl
  · split
    · exact Or.inl rfl
    · exact Or.inr ⟨_, _, rfl⟩

theorem subreddits_shape_LeaveSubReddit (s : EngineState) (u c : String) :
    (LeaveSubReddit s u c).2.subreddits = s.subreddits ∨
    ∃ k v, (LeaveSubReddit s u c).2.subreddits = mapStore s.subreddits k v := by
  simp only [LeaveSubReddit]
  split
  · exact Or.inl rfl
  · exact Or.inr ⟨_, _, rfl⟩

theorem nextID_le_RegisterAccount (s : EngineState) (u p : String) :
    s.nextID ≤ (RegisterAccount s u p).2.nextID := by
  simp only [RegisterAccount, generateID]
  split
  · exact le_refl _
  · exact Nat.le_succ _

theorem nextID_le_CreateSubReddit (s : EngineState) (n d c : String) :
    s.nextID ≤ (CreateSubReddit s n d c).2.nextID := by
  simp only [CreateSubReddit, generateID]
  split
  · exact le_refl _
  · exact Nat.le_succ _

theorem nextID_le_CreatePost (s : EngineState) (t c a sub : String) :
    s.nextID ≤ (CreatePost s t c a sub).2.nextID := by
  simp only [CreatePost, generateID]
  split
  · split <;> exact le_refl _
  · split
    · exact le_refl _
    · split
      · exact le_refl _
      · exact Nat.le_succ _

theorem nextID_le_CreateComment (s : EngineState) (c a p : String)
    (par : Option String) :
    s.nextID ≤ (CreateComment s c a p par).2.nextID := by
  simp only [CreateComment, generateID]
  split
  · exact le_refl _
  · split
    · exact le_refl _
    · split
      · split
        · exact le_refl _
        · exact Nat.le_succ _
      · exact Nat.le_succ _

theorem nextID_le_SendDirectMessage (s : EngineState) (f t c : String) :
    s.nextID ≤ (SendDirectMessage s f t c).2.nextID := by
  simp only [SendDirectMessage, generateID]
  split
  · exact le_refl _
  · split
    · exact le_refl _
    · exact Nat.le_succ _

theorem nextID_JoinSubReddit (s : EngineState) (u c : String) :
    (JoinSubReddit s u c).2.nextID = s.nextID := by
  simp only [JoinSubReddit]
  split
  · rfl
  · split <;> rfl

theorem nextID_LeaveSubReddit (s : EngineState) (u c : String) :
    (LeaveSubReddit s u c).2.nextID = s.nextID := by
  simp only [LeaveSubReddit]
  split <;> rfl

/-- Every user-store key was produced by `generateID`. -/
def usersFresh (s : EngineState) : Prop :=
  ∀ p ∈ s.users, ∃ j, j < s.nextID ∧ p.1 = idString j

/-- No two stored users share a username. -/
def usersUnique (s : EngineState) : Prop :=
  s.users.Pairwise (fun a b => a.2.username ≠ b.2.username)

/-- Every stored user has karma 0. -/
def karmaZero (s : EngineState) : Prop :=
  ∀ p ∈ s.users, p.2.karma = 0

/-- The subreddit store binds each key at most once. -/
def subKeysNodup (s : EngineState) : Prop :=
  (s.subreddits.map Prod.fst).Nodup

theorem usersFresh_mono {s t : EngineState} (hu : t.users = s.users)
    (hn : s.nextID ≤ t.nextID) (hf : usersFresh s) : usersFresh t := by
  intro p hp
  obtain ⟨j, hj, he⟩ := hf p (hu ▸ hp)
  exact ⟨j, lt_of_lt_of_le hj hn, he⟩

theorem usersUnique_congr {s t : EngineState} (hu : t.users = s.users)
    (h : usersUnique s) : usersUnique t := by
  unfold usersUnique
  rw [hu]
  exact h

theorem karmaZero_congr {s t : EngineState} (hu : t.users = s.users)
    (h : karmaZero s) : karmaZero t := by
  intro p hp
  exact h p (hu ▸ hp)

theorem subKeysNodup_of_shape {s t : EngineState}
    (hshape : t.subreddits = s.subreddits ∨
      ∃ k v, t.subreddits = mapStore s.subreddits k v)
    (hnd : subKeysNodup s) : subKeysNodup t := by
  rcases hshape with he | ⟨k, v, he⟩
  · unfold subKeysNodup
    rw [he]
    exact hnd
  · unfold subKeysNodup
    rw [he]
    exact keysNodup_mapStore _ k v hnd

theorem reachable_invariant {s : EngineState} (h : Reachable s) :
    usersFresh s ∧ usersUnique s ∧ karmaZero s ∧ subKeysNodup s := by
  induction h with
  | init =>
    refine ⟨?_, ?_, ?_, ?_⟩ <;> simp [usersFresh, usersUnique, karmaZero,
      subKeysNodup, initState]
  | register s u p hr ih =>
    obtain ⟨hf, hu, hk, hsn⟩ := ih
    by_cases hc : s.users.any (fun q => q.2.username == u) = true
    · simp only [RegisterAccount_conflict s u p hc]
      exact ⟨hf, hu, hk, hsn⟩
    · simp only [RegisterAccount_success s u p hc]
      have hnone : mapLoad s.users (idString s.nextID) = none := by
        rw [mapLoad_eq_none_iff]
        intro q hq he
        obtain ⟨j, hj, hje⟩ := hf q hq
        exact absurd (idString_injective (hje ▸ he)) (Nat.ne_of_lt hj)
      have happ := mapStore_of_none (m := s.users)
        ({ id := idString s.nextID, username := u, password := bcryptHash p,
           karma := 0, isOnline := false } : models.User) hnone
      refine ⟨?_, ?_, ?_, ?_⟩
      · intro q hq
        simp only [happ] at hq
        rcases List.mem_append.1 hq with hq | hq
        · obtain ⟨j, hj, hje⟩ := hf q hq
          exact ⟨j, Nat.lt_succ_of_lt hj, hje⟩
        · refine ⟨s.nextID, Nat.lt_succ_self _, ?_⟩
          simp at hq
          rw [hq]
      · unfold usersUnique
        simp only [happ]
        rw [List.pairwise_append]
        refine ⟨hu, List.pairwise_singleton _ _, ?_⟩
        intro a ha b hb
        have hb' : b = ((idString s.nextID : String),
            ({ id := idString s.nextID, username := u, password := bcryptHash p,
               karma := 0, isOnline := false } : models.User)) := by simpa using hb
        have hne : ¬ (a.2.username == u) = true := by
          intro he
          exact hc (List.any_eq_true.2 ⟨a, ha, he⟩)
        rw [hb']
        simpa using hne
      · intro q hq
        simp only [happ] at hq
        rcases List.mem_append.1 hq with hq | hq
        · exact hk q hq
        · simp at hq
          rw [hq]
      · exact hsn
  | createSub s n d c hr ih =>
    obtain ⟨hf, hu, hk, hsn⟩ := ih
    exact ⟨usersFresh_mono (users_CreateSubReddit s n d c)
        (nextID_le_CreateSubReddit s n d c) hf,
      usersUnique_congr (users_CreateSubReddit s n d c) hu,
      karmaZero_congr (users_CreateSubReddit s n d c) hk,
      subKeysNodup_of_shape (subreddits_shape_CreateSubReddit s n d c) hsn⟩
  | join s u c hr ih =>
    obtain ⟨hf, hu, hk, hsn⟩ := ih
    exact ⟨usersFresh_mono (users_JoinSubReddit s u c)
        (le_of_eq (nextID_JoinSubReddit s u c).symm) hf,
      usersUnique_congr (users_JoinSubReddit s u c) hu,
      karmaZero_congr (users_JoinSubReddit s u c) hk,
      subKeysNodup_of_shape (subreddits_shape_JoinSubReddit s u c) hsn⟩
  | leave s u c hr ih =>
    obtain ⟨hf, hu, hk, hsn⟩ := ih
    exact ⟨usersFresh_mono (users_LeaveSubReddit s u c)
        (le_of_eq (nextID_LeaveSubReddit s u c).symm) hf,
      usersUnique_congr (users_LeaveSubReddit s u c) hu,
      karmaZero_congr (users_LeaveSubReddit s u c) hk,
      subKeysNodup_of_shape (subreddits_shape_LeaveSubReddit s u c) hsn⟩
  | post s t c a sub hr ih =>
    obtain ⟨hf, hu, hk, hsn⟩ := ih
    exact ⟨usersFresh_mono (users_CreatePost s t c a sub)
        (nextID_le_CreatePost s t c a sub) hf,
      usersUnique_congr (users_CreatePost s t c a sub) hu,
      karmaZero_congr (users_CreatePost s t c a sub) hk,
      subKeysNodup_of_shape (Or.inl (subreddits_CreatePost s t c a sub)) hsn⟩
  | comment s c a p par hr ih =>
    obtain ⟨hf, hu, hk, hsn⟩ := ih
    exact ⟨usersFresh_mono (users_CreateComment s c a p par)
        (nextID_le_CreateComment s c a p par) hf,
      usersUnique_congr (users_CreateComment s c a p par) hu,
      karmaZero_congr (users_CreateComment s c a p par) hk,
      subKeysNodup_of_shape (Or.inl (subreddits_CreateComment s c a p par)) hsn⟩
  | vote s u t b hr ih =>
    obtain ⟨hf, hu, hk, hsn⟩ := ih
    exact ⟨usersFresh_mono (users_Vote s u t b)
        (le_of_eq (nextID_Vote s u t b).symm) hf,
      usersUnique_congr (users_Vote s u t b) hu,
      karmaZero_congr (users_Vote s u t b) hk,
      subKeysNodup_of_shape (Or.inl (subreddits_Vote s u t b)) hsn⟩
  | send s f t c hr ih =>
    obtain ⟨hf, hu, hk, hsn⟩ := ih
    exact ⟨usersFresh_mono (users_SendDirectMessage s f t c)
        (nextID_le_SendDirectMessage s f t c) hf,
      usersUnique_congr (users_SendDirectMessage s f t c) hu,
      karmaZero_congr (users_SendDirectMessage s f t c) hk,
      subKeysNodup_of_shape (Or.inl (subreddits_SendDirectMessage s f t c)) hsn⟩
  | getMsg s u m hr ih =>
    simp only [state_GetMessage s u m]
    exact ih

theorem JoinSubReddit_success {s : EngineState} {U C : String}
    {sub : models.SubReddit}
    (hsub : mapLoad s.subreddits C = some sub)
    (hU : (mapLoad s.users U).isSome = true) :
    JoinSubReddit s U C =
      (none,
       { s with
         subreddits :=
           mapStore s.subreddits C
             ({ sub with members := membersStore sub.members U }) }) := by
  obtain ⟨x, hx⟩ := Option.isSome_iff_exists.1 hU
  simp [JoinSubReddit, hsub, hx]

theorem CreatePost_denied {s : EngineState} {A S : String} {sub : models.SubReddit}
    (t c : String)
    (hA : (mapLoad s.users A).isSome = true)
    (hS : mapLoad s.subreddits S = some sub)
    (hm : sub.members.contains A = false) :
    CreatePost s t c A S =
      (Except.error "user is not a member of this subreddit", s) := by
  obtain ⟨x, hx⟩ := Option.isSome_iff_exists.1 hA
  have hm' : A ∉ sub.members := by simpa using hm
  simp [CreatePost, hS, hx, hm']

theorem CreatePost_success {s : EngineState} {A S : String} {sub : models.SubReddit}
    (t c : String)
    (hA : (mapLoad s.users A).isSome = true)
    (hS : mapLoad s.subreddits S = some sub)
    (hm : sub.members.contains A = true) :
    CreatePost s t c A S =
      (Except.ok ({ id := idString s.nextID, title := t, content := c,
                    authorID := A, subRedditID := S, isRepost := false,
                    originalID := "", upvotes := 0, downvotes := 0,
                    commentCount := 0 } : models.Post),
       { s with
         posts :=
           mapStore s.posts (idString s.nextID)
             ({ id := idString s.nextID, title := t, content := c,
                authorID := A, subRedditID := S, isRepost := false,
                originalID := "", upvotes := 0, downvotes := 0,
                commentCount := 0 }),
         nextID := s.nextID + 1 }) := by
  obtain ⟨x, hx⟩ := Option.isSome_iff_exists.1 hA
  have hm' : A ∈ sub.members := by simpa using hm
  simp [CreatePost, hS, hx, hm', generateID]

theorem Vote_new_post {s : EngineState} {U T : String} {post : models.Post}
    (b : Bool)
    (hp : mapLoad s.posts T = some post)
    (hv : mapLoad s.votes (voteID U T) = none) :
    Vote s U T b =
      (none,
       { s with
         posts :=
           mapStore s.posts T
             (if b then ({ post with upvotes := post.upvotes + 1 })
              else ({ post with downvotes := post.downvotes + 1 })),
         votes :=
           mapStore s.votes (voteID U T)
             ({ userID := U, targetID := T, isUpvote := b }) }) := by
  cases b <;> simp [Vote, hp, hv]

theorem Vote_new_comment {s : EngineState} {U T : String} {c : models.Comment}
    (b : Bool)
    (hp : mapLoad s.posts T = none)
    (hc : mapLoad s.comments T = some c)
    (hv : mapLoad s.votes (voteID U T) = none) :
    Vote s U T b =
      (none,
       { s with
         comments :=
           mapStore s.comments T
             (if b then ({ c with upvotes := c.upvotes + 1 })
              else ({ c with downvotes := c.downvotes + 1 })),
         votes :=
           mapStore s.votes (voteID U T)
             ({ userID := U, targetID := T, isUpvote := b }) }) := by
  cases b <;> simp [Vote, hp, hc, hv]

theorem Vote_repeat_same {s : EngineState} {U T : String} {v : models.Vote}
    {b : Bool}
    (ht : ((mapLoad s.posts T).isNone && (mapLoad s.comments T).isNone) = false)
    (hv : mapLoad s.votes (voteID U T) = some v)
    (hb : v.isUpvote = b) :
    Vote s U T b = (none, s) := by
  simp [Vote, ht, hv, hb]

theorem Vote_flip_post {s : EngineState} {U T : String} {post : models.Post}
    {v : models.Vote} {b : Bool}
    (hp : mapLoad s.posts T = some post)
    (hv : mapLoad s.votes (voteID U T) = some v)
    (hb : ¬ v.isUpvote = b) :
    Vote s U T b =
      (none,
       { s with
         posts :=
           mapStore s.posts T
             (if b then ({ post with upvotes := post.upvotes + 1,
                                     downvotes := post.downvotes - 1 })
              else ({ post with downvotes := post.downvotes + 1,
                                upvotes := post.upvotes - 1 })),
         votes :=
           mapStore s.votes (voteID U T) ({ v with isUpvote := b }) }) := by
  cases b <;> simp_all [Vote, hp, hv]

theorem Vote_flip_comment {s : EngineState} {U T : String} {c : models.Comment}
    {v : models.Vote} {b : Bool}
    (hp : mapLoad s.posts T = none)
    (hc : mapLoad s.comments T = some c)
    (hv : mapLoad s.votes (voteID U T) = some v)
    (hb : ¬ v.isUpvote = b) :
    Vote s U T b =
      (none,
       { s with
         comments :=
           mapStore s.comments T
             (if b then ({ c with upvotes := c.upvotes + 1,
                                  downvotes := c.downvotes - 1 })
              else ({ c with downvotes := c.downvotes + 1,
                             upvotes := c.upvotes - 1 })),
         votes :=
           mapStore s.votes (voteID U T) ({ v with isUpvote := b }) }) := by
  cases b <;> simp_all [Vote, hp, hc, hv]

/-- C1: per-(user,target) vote state machine: from no prior vote on a fresh
target, up;up leaves the counters at (1,0) (idempotent), up;down leaves them
at (0,1) (flip), and the recorded polarity equals the last vote issued. -/
theorem C1_vote_state_machine (s : EngineState) (U T : String)
    (hcnt : targetCounters s T = some (0, 0))
    (hnov : mapLoad s.votes (voteID U T) = none) :
    (targetCounters (Vote (Vote s U T true).2 U T true).2 T = some (1, 0)
      ∧ recordedPolarity (Vote (Vote s U T true).2 U T true).2 U T = some true)
    ∧ (targetCounters (Vote (Vote s U T true).2 U T false).2 T = some (0, 1)
      ∧ recordedPolarity (Vote (Vote s U T true).2 U T false).2 U T
          = some false) := by
  cases hp : mapLoad s.posts T with
  | some post =>
    have hup : post.upvotes = 0 := by
      simp [targetCounters, hp] at hcnt
      exact hcnt.1
    have hdn : post.downvotes = 0 := by
      simp [targetCounters, hp] at hcnt
      exact hcnt.2
    have hw : (Vote s U T true).2 =
        { s with
          posts :=
            mapStore s.posts T ({ post with upvotes := post.upvotes + 1 }),
          votes :=
            mapStore s.votes (voteID U T)
              ({ userID := U, targetID := T, isUpvote := true }) } := by
      rw [Vote_new_post true hp hnov]
      rfl
    have hwp : mapLoad (Vote s U T true).2.posts T =
        some ({ post with upvotes := post.upvotes + 1 }) := by
      rw [hw]
      show mapLoad (mapStore s.posts T _) T = _
      rw [mapLoad_mapStore]
      simp
    have hwv : mapLoad (Vote s U T true).2.votes (voteID U T) =
        some ({ userID := U, targetID := T, isUpvote := true }) := by
      rw [hw]
      show mapLoad (mapStore s.votes (voteID U T) _) (voteID U T) = _
      rw [mapLoad_mapStore]
      simp
    have ht2 : ((mapLoad (Vote s U T true).2.posts T).isNone &&
        (mapLoad (Vote s U T true).2.comments T).isNone) = false := by
      rw [hwp]
      rfl
    constructor
    · have hsame := Vote_repeat_same ht2 hwv rfl
      rw [hsame]
      constructor
      · show targetCounters (Vote s U T true).2 T = some (1, 0)
        simp [targetCounters, hwp, hup, hdn]
      · show recordedPolarity (Vote s U T true).2 U T = some true
        simp [recordedPolarity, hwv]
    · have hflip := Vote_flip_post (b := false) hwp hwv (by simp)
      rw [hflip]
      constructor
      · show targetCounters
          ({ (Vote s U T true).2 with
             posts := mapStore (Vote s U T true).2.posts T _,
             votes := mapStore (Vote s U T true).2.votes (voteID U T) _ }) T
          = some (0, 1)
        simp [targetCounters, mapLoad_mapStore, hup, hdn]
      · show recordedPolarity
          ({ (Vote s U T true).2 with
             posts := mapStore (Vote s U T true).2.posts T _,
             votes := mapStore (Vote s U T true).2.votes (voteID U T) _ }) U T
          = some false
        simp [recordedPolarity, mapLoad_mapStore]
  | none =>
    cases hc : mapLoad s.comments T with
    | none => simp [targetCounters, hp, hc] at hcnt
    | some c =>
      have hup : c.upvotes = 0 := by
        simp [targetCounters, hp, hc] at hcnt
        exact hcnt.1
      have hdn : c.downvotes = 0 := by
        simp [targetCounters, hp, hc] at hcnt
        exact hcnt.2
      have hw : (Vote s U T true).2 =
          { s with
            comments :=
              mapStore s.comments T ({ c with upvotes := c.upvotes + 1 }),
            votes :=
              mapStore s.votes (voteID U T)
                ({ userID := U, targetID := T, isUpvote := true }) } := by
        rw [Vote_new_comment true hp hc hnov]
        rfl
      have hwpn : mapLoad (Vote s U T true).2.posts T = none := by
        rw [hw]
        exact hp
      have hwc : mapLoad (Vote s U T true).2.comments T =
          some ({ c with upvotes := c.upvotes + 1 }) := by
        rw [hw]
        show mapLoad (mapStore s.comments T _) T = _
        rw [mapLoad_mapStore]
        simp
      have hwv : mapLoad (Vote s U T true).2.votes (voteID U T) =
          some ({ userID := U, targetID := T, isUpvote := true }) := by
        rw [hw]
        show mapLoad (mapStore s.votes (voteID U T) _) (voteID U T) = _
        rw [mapLoad_mapStore]
        simp
      have ht2 : ((mapLoad (Vote s U T true).2.posts T).isNone &&
          (mapLoad (Vote s U T true).2.comments T).isNone) = false := by
        rw [hwc]
        simp
      constructor
      · have hsame := Vote_repeat_same ht2 hwv rfl
        rw [hsame]
        constructor
        · show targetCounters (Vote s U T true).2 T = some (1, 0)
          simp [targetCounters, hwpn, hwc, hup, hdn]
        · show recordedPolarity (Vote s U T true).2 U T = some true
          simp [recordedPolarity, hwv]
      · have hflip := Vote_flip_comment (b := false) hwpn hwc hwv (by simp)
        rw [hflip]
        constructor
        · show targetCounters
            ({ (Vote s U T true).2 with
               comments := mapStore (Vote s U T true).2.comments T _,
               votes := mapStore (Vote s U T true).2.votes (voteID U T) _ }) T
            = some (0, 1)
          simp [targetCounters, mapLoad_mapStore, hwpn, hup, hdn]
        · show recordedPolarity
            ({ (Vote s U T true).2 with
               comments := mapStore (Vote s U T true).2.comments T _,
               votes := mapStore (Vote s U T true).2.votes (voteID U T) _ }) U T
            = some false
          simp [recordedPolarity, mapLoad_mapStore]

/-- Concrete run: register alice. -/
def stA : EngineState := (RegisterAccount initState "alice" "pw").2

/-- alice's id in the concrete run. -/
def aliceID : String := idString 0

/-- Concrete run: also register bob. -/
def stB : EngineState := (RegisterAccount stA "bob" "pw").2

/-- bob's id in the concrete run. -/
def bobID : String := idString 1

/-- Concrete run: alice creates a subreddit (she becomes its first member). -/
def stSub : EngineState := (CreateSubReddit stB "golang" "all about go" aliceID).2

/-- The subreddit's id in the concrete run. -/
def subIDc : String := idString 2

/-- Concrete run: alice posts into her subreddit. -/
def stPost : EngineState := (CreatePost stSub "hello" "first" aliceID subIDc).2

/-- The post's id in the concrete run. -/
def postIDc : String := idString 3

/-- Concrete run: bob leaves a top-level comment on the post. -/
def stTop : EngineState := (CreateComment stPost "nice" bobID postIDc none).2

/-- The top-level comment's id in the concrete run. -/
def topIDc : String := idString 4

/-- Concrete run: alice sends bob a direct message. -/
def stMsg : EngineState := (SendDirectMessage stTop aliceID bobID "hi").2

/-- The direct message's id in the concrete run. -/
def msgIDc : String := idString 5

theorem reachable_stA : Reachable stA :=
  Reachable.register _ _ _ Reachable.init

theorem reachable_stB : Reachable stB :=
  Reachable.register _ _ _ reachable_stA

theorem reachable_stSub : Reachable stSub :=
  Reachable.createSub _ _ _ _ reachable_stB

theorem reachable_stPost : Reachable stPost :=
  Reachable.post _ _ _ _ _ reachable_stSub

theorem reachable_stTop : Reachable stTop :=
  Reachable.comment _ _ _ _ _ reachable_stPost

theorem reachable_stMsg : Reachable stMsg :=
  Reachable.send _ _ _ _ reachable_stTop

/-- C2: the depth bug made concrete.  In the run where bob's comment
`topIDc` sits at depth 0 on alice's post, the reply that names it as
parent is created with depth 0 as well — `CreateComment` never assigns
the `Depth` field — although the claim requires parent.depth + 1 = 1. -/
theorem C2_reply_depth_is_zero :
    (mapLoad stTop.comments topIDc).map models.Comment.depth = some 0
    ∧ ((CreateComment stTop "re" aliceID postIDc (some topIDc)).1.toOption.map
        models.Comment.parentID) = some (some topIDc)
    ∧ ((CreateComment stTop "re" aliceID postIDc (some topIDc)).1.toOption.map
        models.Comment.depth) = some 0 := by
  refine ⟨rfl, rfl, rfl⟩

/-- C3: in every reachable state no two stored users share a username;
`RegisterAccount` returns the conflict error exactly when some stored user
already has the (case-sensitively) same username, and otherwise appends
exactly one new user with karma 0. -/
theorem C3_username_uniqueness :
    (∀ s, Reachable s →
      s.users.Pairwise (fun a b => a.2.username ≠ b.2.username))
    ∧ (∀ s u p, Reachable s →
        (((RegisterAccount s u p).1 = Except.error "username already exists")
          ↔ ∃ q ∈ s.users, q.2.username = u)
        ∧ ((¬ ∃ q ∈ s.users, q.2.username = u) →
            ∃ nu : models.User, (RegisterAccount s u p).1 = Except.ok nu
              ∧ nu.username = u ∧ nu.karma = 0
              ∧ (RegisterAccount s u p).2.users = s.users ++ [(nu.id, nu)])) := by
  constructor
  · intro s h
    exact (reachable_invariant h).2.1
  · intro s u p h
    by_cases hc : s.users.any (fun q => q.2.username == u) = true
    · have hex : ∃ q ∈ s.users, q.2.username = u := by
        simpa using hc
      rw [RegisterAccount_conflict s u p hc]
      exact ⟨by simpa using hex, fun hne => absurd hex hne⟩
    · have hnex : ¬ ∃ q ∈ s.users, q.2.username = u := by
        simpa using hc
      rw [RegisterAccount_success s u p hc]
      constructor
      · simp [hnex]
      · intro _
        refine ⟨{ id := idString s.nextID, username := u,
                  password := bcryptHash p, karma := 0, isOnline := false },
          rfl, rfl, rfl, ?_⟩
        have hf := (reachable_invariant h).1
        have hnone : mapLoad s.users (idString s.nextID) = none := by
          rw [mapLoad_eq_none_iff]
          intro q hq he
          obtain ⟨j, hj, hje⟩ := hf q hq
          exact absurd (idString_injective (hje ▸ he)) (Nat.ne_of_lt hj)
        exact mapStore_of_none _ hnone

/-- Witness for C3 at the concrete reachable state `stA`. -/
theorem C3_username_uniqueness_witness :
    Reachable stA
    ∧ (((RegisterAccount stA "alice" "x").1
          = Except.error "username already exists")
        ↔ ∃ q ∈ stA.users, q.2.username = "alice")
    ∧ stA.users.Pairwise (fun a b => a.2.username ≠ b.2.username) :=
  ⟨reachable_stA,
   (C3_username_uniqueness.2 stA "alice" "x" reachable_stA).1,
   C3_username_uniqueness.1 stA reachable_stA⟩

/-- C4: with the author and the community both present, `CreatePost` fails
with the permission error iff the author is not a member; after a `join`
the identical call succeeds and the post is stored. -/
theorem C4_membership_gate (s : EngineState) (A S t c : String)
    (sub : models.SubReddit)
    (hA : (mapLoad s.users A).isSome = true)
    (hS : mapLoad s.subreddits S = some sub) :
    (((CreatePost s t c A S).1
        = Except.error "user is not a member of this subreddit")
      ↔ A ∉ sub.members)
    ∧ ((JoinSubReddit s A S).1 = none
       ∧ ∃ p, (CreatePost (JoinSubReddit s A S).2 t c A S).1 = Except.ok p
           ∧ mapLoad (CreatePost (JoinSubReddit s A S).2 t c A S).2.posts p.id
               = some p) := by
  constructor
  · by_cases hm : A ∈ sub.members
    · rw [CreatePost_success t c hA hS (by simpa using hm)]
      simp [hm]
    · rw [CreatePost_denied t c hA hS (by simpa using hm)]
      simp [hm]
  · have hjoin := JoinSubReddit_success hS hA
    constructor
    · rw [hjoin]
    · have hsubs : mapLoad (JoinSubReddit s A S).2.subreddits S =
          some ({ sub with members := membersStore sub.members A }) := by
        rw [hjoin]
        show mapLoad (mapStore s.subreddits S _) S = _
        rw [mapLoad_mapStore]
        simp
      have husers : (mapLoad (JoinSubReddit s A S).2.users A).isSome = true := by
        rw [hjoin]
        exact hA
      have hmem : ({ sub with members := membersStore sub.members A } :
          models.SubReddit).members.contains A = true := by
        simpa using mem_membersStore_self sub.members A
      rw [CreatePost_success t c husers hsubs hmem]
      refine ⟨_, rfl, ?_⟩
      show mapLoad (mapStore (JoinSubReddit s A S).2.posts _ _) _ = _
      rw [mapLoad_mapStore]
      simp

/-- Witness for C4 in the concrete run: bob exists but is not a member of
alice's subreddit. -/
theorem C4_membership_gate_witness :
    (mapLoad stSub.users bobID).isSome = true
    ∧ mapLoad stSub.subreddits subIDc
        = some ({ id := subIDc, name := "golang", description := "all about go",
                  creatorID := aliceID, memberCount := 0, postCount := 0,
                  members := [aliceID] })
    ∧ (((CreatePost stSub "t" "c" bobID subIDc).1
          = Except.error "user is not a member of this subreddit")
        ↔ bobID ∉ ({ id := subIDc, name := "golang",
                     description := "all about go", creatorID := aliceID,
                     memberCount := 0, postCount := 0,
                     members := [aliceID] } : models.SubReddit).members) :=
  ⟨rfl, rfl,
   (C4_membership_gate stSub bobID subIDc "t" "c" _ rfl rfl).1⟩

/-- C5: `GetFeed` returns exactly the stored posts whose community id is one
where the user is currently a member. -/
theorem C5_feed_exactness (s : EngineState) (U : String) (p : models.Post) :
    p ∈ GetFeed s U ↔
      ((∃ e ∈ s.posts, e.2 = p)
        ∧ ∃ r ∈ s.subreddits, r.2.id = p.subRedditID ∧ U ∈ r.2.members) := by
  unfold GetFeed
  simp only [List.mem_filter, List.mem_map]
  constructor
  · rintro ⟨⟨e, he, rfl⟩, hc⟩
    refine ⟨⟨e, he, rfl⟩, ?_⟩
    have : e.2.subRedditID ∈ (s.subreddits.filter
        (fun q => q.2.members.contains U)).map (fun q => q.2.id) := by
      simpa using hc
    rcases List.mem_map.1 this with ⟨r, hr, hrid⟩
    rcases List.mem_filter.1 hr with ⟨hrs, hrm⟩
    exact ⟨r, hrs, hrid, by simpa using hrm⟩
  · rintro ⟨⟨e, he, rfl⟩, r, hr, hrid, hrm⟩
    refine ⟨⟨e, he, rfl⟩, ?_⟩
    have : e.2.subRedditID ∈ (s.subreddits.filter
        (fun q => q.2.members.contains U)).map (fun q => q.2.id) :=
      List.mem_map.2 ⟨r, List.mem_filter.2 ⟨hr, by simpa using hrm⟩, hrid⟩
    simpa using this

/-- C6: every engine operation is all-or-nothing: whenever a call returns
an error, the state it returns is exactly the state it was given. -/
theorem C6_all_or_nothing (s : EngineState) :
    (∀ u p e, (RegisterAccount s u p).1 = Except.error e →
      (RegisterAccount s u p).2 = s)
    ∧ (∀ n d c e, (CreateSubReddit s n d c).1 = Except.error e →
        (CreateSubReddit s n d c).2 = s)
    ∧ (∀ u c e, (JoinSubReddit s u c).1 = some e →
        (JoinSubReddit s u c).2 = s)
    ∧ (∀ u c e, (LeaveSubReddit s u c).1 = some e →
        (LeaveSubReddit s u c).2 = s)
    ∧ (∀ t c a d e, (CreatePost s t c a d).1 = Except.error e →
        (CreatePost s t c a d).2 = s)
    ∧ (∀ c a d q e, (CreateComment s c a d q).1 = Except.error e →
        (CreateComment s c a d q).2 = s)
    ∧ (∀ u t b e, (Vote s u t b).1 = some e → (Vote s u t b).2 = s)
    ∧ (∀ f t c e, (SendDirectMessage s f t c).1 = Except.error e →
        (SendDirectMessage s f t c).2 = s)
    ∧ (∀ u m e, (GetMessage s u m).1 = Except.error e →
        (GetMessage s u m).2 = s) := by
  refine ⟨?_, ?_, ?_, ?_, ?_, ?_, ?_, ?_, ?_⟩
  · intro u p e
    simp only [RegisterAccount, generateID]
    split
    · intro _
      rfl
    · intro h
      simp at h
  · intro n d c e
    simp only [CreateSubReddit, generateID]
    split
    · intro _
      rfl
    · intro h
      simp at h
  · intro u c e
    simp only [JoinSubReddit]
    split
    · intro _
      rfl
    · split
      · intro _
        rfl
      · intro h
        simp at h
  · intro u c e
    simp only [LeaveSubReddit]
    split
    · intro _
      rfl
    · intro h
      simp at h
  · intro t c a d e
    simp only [CreatePost, generateID]
    split
    · split
      · intro _
        rfl
      · intro _
        rfl
    · split
      · intro _
        rfl
      · split
        · intro _
          rfl
        · intro h
          simp at h
  · intro c a d q e
    simp only [CreateComment, generateID]
    split
    · intro _
      rfl
    · split
      · intro _
        rfl
      · split
        · split
          · intro _
            rfl
          · intro h
            simp at h
        · intro h
          simp at h
  · intro u t b e
    simp only [Vote]
    split
    · intro _
      rfl
    · split
      · split
        · intro h
          simp at h
        · intro h
          simp at h
      · intro h
        simp at h
  · intro f t c e
    simp only [SendDirectMessage, generateID]
    split
    · intro _
      rfl
    · split
      · intro _
        rfl
      · intro h
        simp at h
  · intro u m e
    simp only [GetMessage]
    split
    · intro _
      rfl
    · split
      · intro _
        rfl
      · intro h
        simp at h

/-- Witness for C6: concrete failing calls on the concrete run leave the
state untouched. -/
theorem C6_all_or_nothing_witness :
    ((RegisterAccount stA "alice" "x").1
        = Except.error "username already exists"
      ∧ (RegisterAccount stA "alice" "x").2 = stA)
    ∧ ((CreateSubReddit stA "n" "d" "ghost").1
        = Except.error "creator not found"
      ∧ (CreateSubReddit stA "n" "d" "ghost").2 = stA)
    ∧ ((JoinSubReddit stA "ghost" "nosub").1 = some "subreddit not found"
      ∧ (JoinSubReddit stA "ghost" "nosub").2 = stA)
    ∧ ((LeaveSubReddit stA "ghost" "nosub").1 = some "subreddit not found"
      ∧ (LeaveSubReddit stA "ghost" "nosub").2 = stA)
    ∧ ((CreatePost stA "t" "c" "ghost" "nosub").1
        = Except.error "author not found"
      ∧ (CreatePost stA "t" "c" "ghost" "nosub").2 = stA)
    ∧ ((CreateComment stA "c" "ghost" "nopost" none).1
        = Except.error "author not found"
      ∧ (CreateComment stA "c" "ghost" "nopost" none).2 = stA)
    ∧ ((Vote stA aliceID "notarget" true).1 = some "target not found"
      ∧ (Vote stA aliceID "notarget" true).2 = stA)
    ∧ ((SendDirectMessage stA "ghost" aliceID "hi").1
        = Except.error "sender not found"
      ∧ (SendDirectMessage stA "ghost" aliceID "hi").2 = stA)
    ∧ ((GetMessage stA aliceID "nomsg").1 = Except.error "message not found"
      ∧ (GetMessage stA aliceID "nomsg").2 = stA) :=
  ⟨⟨rfl, (C6_all_or_nothing stA).1 "alice" "x" _ rfl⟩,
   ⟨rfl, (C6_all_or_nothing stA).2.1 "n" "d" "ghost" _ rfl⟩,
   ⟨rfl, (C6_all_or_nothing stA).2.2.1 "ghost" "nosub" _ rfl⟩,
   ⟨rfl, (C6_all_or_nothing stA).2.2.2.1 "ghost" "nosub" _ rfl⟩,
   ⟨rfl, (C6_all_or_nothing stA).2.2.2.2.1 "t" "c" "ghost" "nosub" _ rfl⟩,
   ⟨rfl, (C6_all_or_nothing stA).2.2.2.2.2.1 "c" "ghost" "nopost" none _ rfl⟩,
   ⟨rfl, (C6_all_or_nothing stA).2.2.2.2.2.2.1 aliceID "notarget" true _ rfl⟩,
   ⟨rfl, (C6_all_or_nothing stA).2.2.2.2.2.2.2.1 "ghost" aliceID "hi" _ rfl⟩,
   ⟨rfl, (C6_all_or_nothing stA).2.2.2.2.2.2.2.2 aliceID "nomsg" _ rfl⟩⟩

/-- C7: `GetMessage` returns the unauthorized error exactly when the caller
is neither sender nor recipient of the stored message; a sender or
recipient gets the message back, and an unknown id gives the not-found
error. -/
theorem C7_message_access_control (s : EngineState) (U mid : String) :
    (mapLoad s.messages mid = none →
      (GetMessage s U mid).1 = Except.error "message not found")
    ∧ (∀ M, mapLoad s.messages mid = some M →
        (((GetMessage s U mid).1 = Except.error "unauthorized access to message")
          ↔ (M.fromID ≠ U ∧ M.toID ≠ U))
        ∧ ((M.fromID = U ∨ M.toID = U) →
            (GetMessage s U mid).1 = Except.ok M)) := by
  constructor
  · intro h
    simp [GetMessage, h]
  · intro M hM
    constructor
    · by_cases hf : M.fromID = U
      · simp [GetMessage, hM, hf]
      · by_cases ht : M.toID = U
        · simp [GetMessage, hM, hf, ht]
        · simp [GetMessage, hM, hf, ht]
    · intro hor
      have : ¬ (M.fromID != U && M.toID != U) = true := by
        rcases hor with h | h <;> simp [h]
      simp [GetMessage, hM, this]

/-- Witness for C7: in the concrete run, bob's id differs from both ends of
no message, alice is the sender, and an unknown id is not found. -/
theorem C7_message_access_control_witness :
    ((GetMessage stMsg "intruder" msgIDc).1
        = Except.error "unauthorized access to message")
    ∧ (GetMessage stMsg aliceID msgIDc).1
        = Except.ok ({ id := msgIDc, fromID := aliceID, toID := bobID,
                       content := "hi", isRead := false })
    ∧ (GetMessage stMsg aliceID "nomsg").1 = Except.error "message not found" :=
  ⟨((C7_message_access_control stMsg "intruder" msgIDc).2 _ rfl).1.2
      (by refine ⟨?_, ?_⟩ <;> decide),
   ((C7_message_access_control stMsg aliceID msgIDc).2 _ rfl).2
      (Or.inl rfl),
   (C7_message_access_control stMsg aliceID "nomsg").1 rfl⟩

/-- C8: joining a subreddit is idempotent: with the user and the community
both present in a reachable state, both joins succeed and the second one
leaves the state of the first unchanged. -/
theorem C8_join_idempotent (s : EngineState) (U C : String)
    (hreach : Reachable s)
    (hU : (mapLoad s.users U).isSome = true)
    (hC : (mapLoad s.subreddits C).isSome = true) :
    (JoinSubReddit s U C).1 = none
    ∧ (JoinSubReddit (JoinSubReddit s U C).2 U C).1 = none
    ∧ (JoinSubReddit (JoinSubReddit s U C).2 U C).2 = (JoinSubReddit s U C).2 := by
  obtain ⟨sub, hsub⟩ := Option.isSome_iff_exists.1 hC
  have h1 := JoinSubReddit_success hsub hU
  have hU1 : (mapLoad (JoinSubReddit s U C).2.users U).isSome = true := by
    rw [h1]
    exact hU
  have hsub1 : mapLoad (JoinSubReddit s U C).2.subreddits C =
      some ({ sub with members := membersStore sub.members U }) := by
    rw [h1]
    show mapLoad (mapStore s.subreddits C _) C = _
    rw [mapLoad_mapStore]
    simp
  have h2 := JoinSubReddit_success hsub1 hU1
  have hmem : membersStore (membersStore sub.members U) U
      = membersStore sub.members U :=
    membersStore_of_mem (mem_membersStore_self sub.members U)
  have hnd1 : ((JoinSubReddit s U C).2.subreddits.map Prod.fst).Nodup :=
    (reachable_invariant (Reachable.join s U C hreach)).2.2.2
  refine ⟨by rw [h1], by rw [h2], ?_⟩
  rw [h2, hmem, mapStore_self hnd1 hsub1]

/-- Witness for C8: bob joining alice's subreddit twice in the concrete run. -/
theorem C8_join_idempotent_witness :
    Reachable stSub
    ∧ (JoinSubReddit stSub bobID subIDc).1 = none
    ∧ (JoinSubReddit (JoinSubReddit stSub bobID subIDc).2 bobID subIDc).2
        = (JoinSubReddit stSub bobID subIDc).2 :=
  ⟨reachable_stSub,
   (C8_join_idempotent stSub bobID subIDc reachable_stSub rfl rfl).1,
   (C8_join_idempotent stSub bobID subIDc reachable_stSub rfl rfl).2.2⟩

/-- C9: `LeaveSubReddit` validates only the community: it succeeds (and
removes the membership edge) whenever the community exists — for any user
id string, existing user or not — and fails only when the community id is
unknown; `JoinSubReddit`, by contrast, also rejects unknown users. -/
theorem C9_leave_checks_only_community (s : EngineState) (uid cid : String) :
    (mapLoad s.subreddits cid = none →
      LeaveSubReddit s uid cid = (some "subreddit not found", s))
    ∧ (∀ sub, mapLoad s.subreddits cid = some sub →
        (LeaveSubReddit s uid cid).1 = none
        ∧ mapLoad (LeaveSubReddit s uid cid).2.subreddits cid
            = some ({ sub with members := membersDelete sub.members uid }))
    ∧ (mapLoad s.users uid = none →
        ∀ sub, mapLoad s.subreddits cid = some sub →
          (JoinSubReddit s uid cid).1 = some "user not found") := by
  refine ⟨?_, ?_, ?_⟩
  · intro h
    simp [LeaveSubReddit, h]
  · intro sub h
    refine ⟨by simp [LeaveSubReddit, h], ?_⟩
    simp only [LeaveSubReddit, h]
    show mapLoad (mapStore s.subreddits cid _) cid = _
    rw [mapLoad_mapStore]
    simp
  · intro hu sub h
    simp [JoinSubReddit, h, hu]

/-- Witness for C9: the unknown user id "ghost" can leave alice's subreddit
but cannot join it, and leaving an unknown community fails. -/
theorem C9_leave_checks_only_community_witness :
    LeaveSubReddit stSub "ghost" "nosub" = (some "subreddit not found", stSub)
    ∧ (LeaveSubReddit stSub "ghost" subIDc).1 = none
    ∧ (JoinSubReddit stSub "ghost" subIDc).1 = some "user not found" :=
  ⟨(C9_leave_checks_only_community stSub "ghost" "nosub").1 rfl,
   ((C9_leave_checks_only_community stSub "ghost" subIDc).2.1 _ rfl).1,
   (C9_leave_checks_only_community stSub "ghost" subIDc).2.2 rfl _ rfl⟩

/-- C10: karma is 0 at registration and never changes: every user stored in
any reachable state has karma 0, and `Vote` leaves the user store (as well
as the subreddit and message stores) entirely unchanged. -/
theorem C10_karma_never_modified :
    (∀ s, Reachable s → ∀ q ∈ s.users, q.2.karma = 0)
    ∧ (∀ s U T b, (Vote s U T b).2.users = s.users
        ∧ (Vote s U T b).2.subreddits = s.subreddits
        ∧ (Vote s U T b).2.messages = s.messages) :=
  ⟨fun s h => (reachable_invariant h).2.2.1,
   fun s U T b => ⟨users_Vote s U T b, subreddits_Vote s U T b,
     messages_Vote s U T b⟩⟩

/-- Witness for C10: alice's stored record in the concrete run has karma 0,
and a concrete vote leaves the user store unchanged. -/
theorem C10_karma_never_modified_witness :
    Reachable stA
    ∧ ((aliceID, ({ id := aliceID, username := "alice",
                    password := bcryptHash "pw", karma := 0,
                    isOnline := false } : models.User)) ∈ stA.users
        → ({ id := aliceID, username := "alice", password := bcryptHash "pw",
              karma := 0, isOnline := false } : models.User).karma = 0)
    ∧ (Vote stPost aliceID postIDc true).2.users = stPost.users :=
  ⟨reachable_stA,
   fun hmem => C10_karma_never_modified.1 stA reachable_stA _ hmem,
   (C10_karma_never_modified.2 stPost aliceID postIDc true).1⟩

/-- Witness for C1: bob voting on alice's fresh post in the concrete run. -/
theorem C1_vote_state_machine_witness :
    targetCounters stPost postIDc = some (0, 0)
    ∧ mapLoad stPost.votes (voteID bobID postIDc) = none
    ∧ targetCounters
        (Vote (Vote stPost bobID postIDc true).2 bobID postIDc true).2 postIDc
        = some (1, 0)
    ∧ targetCounters
        (Vote (Vote stPost bobID postIDc true).2 bobID postIDc false).2 postIDc
        = some (0, 1) :=
  ⟨rfl, rfl,
   (C1_vote_state_machine stPost bobID postIDc rfl rfl).1.1,
   (C1_vote_state_machine stPost bobID postIDc rfl rfl).2.1⟩
